import Mathlib

/-!
Verification development for the capsule-cli repository.

The program under study is a small command-line client with three parts:
a transport client (src/api/http.rs) that performs one HTTP POST and maps
the response to a result, a workflow (src/cmd_create_application.rs) that
calls the transport client and then, when the target directory is a git
repository, ensures a remote named "capsule" exists, and an entry point
(src/main.rs) that prints the outcome.

The embedding below models the outside world explicitly: the HTTP exchange
is a value of `SendOutcome` (the request either times out, fails in
transport, or yields a response with a status code and a body that does or
does not decode), and the local filesystem is a map from path strings to
directory states, each carrying whether a .git subdirectory exists and the
list of configured remotes as name-url pairs. The git library operations
used by the workflow (open, list remote names, add remote) are modelled as
pure operations on that state.
-/

/-- Uniform error type of the CLI: a single human-readable message.
Mirrors the Rust struct CliError. -/
structure CliError where
  message : String
deriving DecidableEq, Repr

/-- Mirrors the Rust struct ApplicationCreateResponse with fields
name, url and git_repo, all strings. -/
structure ApplicationCreateResponse where
  name : String
  url : String
  git_repo : String
deriving DecidableEq, Repr

/-- Outcome of decoding the response body as an ApplicationCreateResponse:
the call response.json either produces a value or fails with a
serde_json error message (converted to CliError by the From impl
in src/api/http.rs, lines 46-50). -/
inductive ResponseBody where
  | decodes (value : ApplicationCreateResponse) : ResponseBody
  | malformed (decodeError : String) : ResponseBody
deriving DecidableEq, Repr

/-- Outcome of the send call in create_application: the request can exceed
the configured timeout, fail in transport with some other isahc error
message, or produce an HTTP response with a status code and a body. -/
inductive SendOutcome where
  | timeout : SendOutcome
  | failure (message : String) : SendOutcome
  | response (status : Nat) (body : ResponseBody) : SendOutcome
deriving DecidableEq, Repr

/-- Message carried by the isahc timeout error: the From conversion at
src/api/http.rs lines 40-44 uses the display string of the library error,
and the repository test should_return_error_if_server_time_out
(src/api/http.rs line 145) pins this exact literal. -/
def timeoutErrorMessage : String :=
  "request or operation took longer than the configured timeout time"

/-- Error message built for a non-201 status at src/api/http.rs line 65. -/
def serverStatusMessage (status_code : Nat) : String :=
  "The server response status " ++ toString status_code ++ "."

/-- Embedding of HttpCapsuleApi::create_application
(src/api/http.rs lines 53-71): given the outcome of the send call, a
timeout or transport failure becomes an error with the library message, a
response with status other than 201 becomes the status-code error, a 201
response is decoded and the three fields are copied into the result. -/
def create_application (name : Option String) (outcome : SendOutcome) :
    Except CliError ApplicationCreateResponse :=
  match name, outcome with
  | _, .timeout => .error { message := timeoutErrorMessage }
  | _, .failure m => .error { message := m }
  | _, .response status body =>
    if status ≠ 201 then
      .error { message := serverStatusMessage status }
    else
      match body with
      | .malformed m => .error { message := m }
      | .decodes r => .ok { name := r.name, url := r.url, git_repo := r.git_repo }

/-- State of one directory: whether a .git subdirectory exists directly
under it, and the remotes (name-url pairs) of the repository rooted
there. -/
structure Directory where
  hasGitDir : Bool
  remotes : List (String × String)
deriving DecidableEq, Repr

/-- The local filesystem, as the workflow sees it: a directory state for
every path string. -/
abbrev Filesystem := String → Directory

/-- Pointwise update of the filesystem at one path. -/
def fsUpdate (fs : Filesystem) (path : String) (d : Directory) : Filesystem :=
  fun q => if q = path then d else fs q

/-- Embedding of is_git_repository (src/cmd_create_application.rs lines
45-47): a pure existence check of the .git subdirectory. -/
def is_git_repository (fs : Filesystem) (application_directory : String) : Bool :=
  (fs application_directory).hasGitDir

/-- Embedding of handle (src/cmd_create_application.rs lines 27-43).
The api argument stands for the CapsuleApi trait object: a function from
the optional name to the result of create_application. First the api is
called; on error the error propagates with no filesystem change. On
success, if the directory is a git repository, the remote names are
listed; when none equals "capsule" a remote ("capsule", git_repo of the
response) is appended; otherwise nothing changes. The response is
returned unchanged. -/
def handle (fs : Filesystem) (application_directory : String)
    (application_name : Option String)
    (api : Option String → Except CliError ApplicationCreateResponse) :
    Except CliError ApplicationCreateResponse × Filesystem :=
  match api application_name with
  | .error e => (.error e, fs)
  | .ok create_response =>
    if is_git_repository fs application_directory then
      let repo := fs application_directory
      let capsule_remote := (repo.remotes.map Prod.fst).find? (fun it => it == "capsule")
      if capsule_remote.isNone then
        (.ok create_response,
          fsUpdate fs application_directory
            { repo with remotes := repo.remotes ++ [("capsule", create_response.git_repo)] })
      else
        (.ok create_response, fs)
    else
      (.ok create_response, fs)

/-- The single subcommand of the CLI (src/main.rs lines 32-39). -/
inductive Commands where
  | Create (name : Option String) : Commands

/-- Embedding of execute_command (src/main.rs lines 41-57). The writer is
modelled as the list of written fragments, in order: first the prefix
written with write (no newline), then on error the message plus newline,
and on success the three lines, each with its newline. The directory
passed to handle is the literal ".". -/
def execute_command (fs : Filesystem) (command : Commands)
    (api : Option String → Except CliError ApplicationCreateResponse) :
    List String × Filesystem :=
  match command with
  | .Create name =>
    match handle fs "." name api with
    | (.error e, fs2) =>
      (["Creating application... ", e.message ++ "\n"], fs2)
    | (.ok response, fs2) =>
      (["Creating application... ",
        "done, " ++ response.name ++ "\n",
        "url: " ++ response.url ++ "\n",
        "git: " ++ response.git_repo ++ "\n"], fs2)

/-! Helper lemmas about the filesystem update and the four branches of
handle. -/

theorem fsUpdate_same (fs : Filesystem) (path : String) (d : Directory) :
    fsUpdate fs path d path = d := by
  simp [fsUpdate]

theorem fsUpdate_other (fs : Filesystem) (path : String) (d : Directory)
    (q : String) (hq : q ≠ path) : fsUpdate fs path d q = fs q := by
  simp [fsUpdate, hq]

theorem handle_of_error (fs : Filesystem) (path : String) (name : Option String)
    (api : Option String → Except CliError ApplicationCreateResponse) (e : CliError)
    (h : api name = .error e) :
    handle fs path name api = (.error e, fs) := by
  simp [handle, h]

theorem handle_of_ok_nongit (fs : Filesystem) (path : String) (name : Option String)
    (api : Option String → Except CliError ApplicationCreateResponse)
    (r : ApplicationCreateResponse)
    (hok : api name = .ok r) (hgit : (fs path).hasGitDir = false) :
    handle fs path name api = (.ok r, fs) := by
  simp [handle, hok, is_git_repository, hgit]

theorem handle_of_ok_add (fs : Filesystem) (path : String) (name : Option String)
    (api : Option String → Except CliError ApplicationCreateResponse)
    (r : ApplicationCreateResponse)
    (hok : api name = .ok r) (hgit : (fs path).hasGitDir = true)
    (hcap : (((fs path).remotes.map Prod.fst).find? (fun it => it == "capsule")) = none) :
    handle fs path name api
      = (.ok r, fsUpdate fs path
          { fs path with remotes := (fs path).remotes ++ [("capsule", r.git_repo)] }) := by
  simp [handle, hok, is_git_repository, hgit, hcap]

theorem handle_of_ok_existing (fs : Filesystem) (path : String) (name : Option String)
    (api : Option String → Except CliError ApplicationCreateResponse)
    (r : ApplicationCreateResponse) (v : String)
    (hok : api name = .ok r) (hgit : (fs path).hasGitDir = true)
    (hcap : (((fs path).remotes.map Prod.fst).find? (fun it => it == "capsule")) = some v) :
    handle fs path name api = (.ok r, fs) := by
  simp [handle, hok, is_git_repository, hgit, hcap]

theorem handle_frame (fs : Filesystem) (path : String) (name : Option String)
    (api : Option String → Except CliError ApplicationCreateResponse)
    (q : String) (hq : q ≠ path) :
    (handle fs path name api).2 q = fs q := by
  cases hapi : api name with
  | error e => rw [handle_of_error fs path name api e hapi]
  | ok r =>
    cases hgit : (fs path).hasGitDir with
    | false => rw [handle_of_ok_nongit fs path name api r hapi hgit]
    | true =>
      cases hfind : (((fs path).remotes.map Prod.fst).find? (fun it => it == "capsule")) with
      | none =>
        rw [handle_of_ok_add fs path name api r hapi hgit hfind]
        exact fsUpdate_other _ _ _ _ hq
      | some v => rw [handle_of_ok_existing fs path name api r v hapi hgit hfind]

theorem handle_congr (fs₁ fs₂ : Filesystem) (path : String) (name : Option String)
    (api : Option String → Except CliError ApplicationCreateResponse)
    (h : fs₁ path = fs₂ path) :
    (handle fs₁ path name api).1 = (handle fs₂ path name api).1
    ∧ (handle fs₁ path name api).2 path = (handle fs₂ path name api).2 path := by
  cases hapi : api name with
  | error e =>
    rw [handle_of_error fs₁ path name api e hapi, handle_of_error fs₂ path name api e hapi]
    exact ⟨rfl, h⟩
  | ok r =>
    cases hgit : (fs₂ path).hasGitDir with
    | false =>
      have hgit1 : (fs₁ path).hasGitDir = false := by rw [h, hgit]
      rw [handle_of_ok_nongit fs₁ path name api r hapi hgit1,
          handle_of_ok_nongit fs₂ path name api r hapi hgit]
      exact ⟨rfl, h⟩
    | true =>
      have hgit1 : (fs₁ path).hasGitDir = true := by rw [h, hgit]
      cases hfind : (((fs₂ path).remotes.map Prod.fst).find? (fun it => it == "capsule")) with
      | none =>
        have hfind1 :
            (((fs₁ path).remotes.map Prod.fst).find? (fun it => it == "capsule")) = none := by
          rw [h, hfind]
        rw [handle_of_ok_add fs₁ path name api r hapi hgit1 hfind1,
            handle_of_ok_add fs₂ path name api r hapi hgit hfind]
        refine ⟨rfl, ?_⟩
        show fsUpdate fs₁ path _ path = fsUpdate fs₂ path _ path
        rw [fsUpdate_same, fsUpdate_same, h]
      | some v =>
        have hfind1 :
            (((fs₁ path).remotes.map Prod.fst).find? (fun it => it == "capsule")) = some v := by
          rw [h, hfind]
        rw [handle_of_ok_existing fs₁ path name api r v hapi hgit1 hfind1,
            handle_of_ok_existing fs₂ path name api r v hapi hgit hfind]
        exact ⟨rfl, h⟩

theorem execute_command_snd (fs : Filesystem) (name : Option String)
    (api : Option String → Except CliError ApplicationCreateResponse) :
    (execute_command fs (Commands.Create name) api).2 = (handle fs "." name api).2 := by
  cases hh : handle fs "." name api with
  | mk res g => cases res <;> simp [execute_command, hh]

theorem execute_command_fst (fs : Filesystem) (name : Option String)
    (api : Option String → Except CliError ApplicationCreateResponse) :
    (execute_command fs (Commands.Create name) api).1
      = match (handle fs "." name api).1 with
        | .error e => ["Creating application... ", e.message ++ "\n"]
        | .ok r => ["Creating application... ", "done, " ++ r.name ++ "\n",
            "url: " ++ r.url ++ "\n", "git: " ++ r.git_repo ++ "\n"] := by
  cases hh : handle fs "." name api with
  | mk res g => cases res <;> simp [execute_command, hh]

theorem serverStatusMessage_head (c : Nat) :
    (serverStatusMessage c).data.head? = some 'T' := by
  show (("The server response status " ++ toString c ++ ".").data).head? = some 'T'
  rw [String.data_append, String.data_append]
  rw [show ("The server response status ").data
      = 'T' :: ("he server response status ").data from rfl]
  simp

theorem timeoutErrorMessage_ne_serverStatusMessage (c : Nat) :
    timeoutErrorMessage ≠ serverStatusMessage c := by
  intro h
  have h2 := congrArg (fun s => s.data.head?) h
  simp only at h2
  rw [serverStatusMessage_head] at h2
  simp [timeoutErrorMessage] at h2

/-! Claim theorems. -/

/-- Claim C1, counterexample to the claim as stated: a response with status
201 whose body does not decode makes create_application return an error,
so the result is not Ok even though the status is 201, refuting the
stated equivalence between Ok and status 201. -/
theorem claim1_counterexample :
    ¬ ((create_application none
          (SendOutcome.response 201
            (ResponseBody.malformed "invalid type: map, expected a string"))).isOk = true
        ↔ 201 = 201) := by
  decide

/-- Claim C1, amended: for every name and every received HTTP response,
create_application returns Ok exactly when the status is 201 and the body
decodes to the expected shape; for any non-201 status it returns Err whose
message is the text The server response status, the numeric code, and a
period. -/
theorem claim1_status_and_decode (name : Option String) (status : Nat)
    (body : ResponseBody) :
    ((create_application name (SendOutcome.response status body)).isOk = true
      ↔ (status = 201 ∧ ∃ r, body = ResponseBody.decodes r))
    ∧ (status ≠ 201 →
        create_application name (SendOutcome.response status body)
          = .error { message := serverStatusMessage status }) := by
  constructor
  · constructor
    · intro h
      by_cases hs : status = 201
      · subst hs
        cases body with
        | decodes r => exact ⟨rfl, r, rfl⟩
        | malformed m => simp [create_application, Except.isOk, Except.toBool] at h
      · simp [create_application, hs, Except.isOk, Except.toBool] at h
    · rintro ⟨hs, r, rfl⟩
      subst hs
      rfl
  · intro hs
    simp [create_application, hs]

/-- Claim C1, witness for the amended theorem at status 500. -/
theorem claim1_witness :
    create_application none
        (SendOutcome.response 500
          (ResponseBody.decodes { name := "a", url := "u", git_repo := "g" }))
      = .error { message := serverStatusMessage 500 } :=
  (claim1_status_and_decode none 500
    (ResponseBody.decodes { name := "a", url := "u", git_repo := "g" })).2 (by decide)

/-- Claim C2: for every name and every 201 response whose body decodes to
the three fields, create_application returns Ok with exactly those field
values, unmodified. -/
theorem claim2_copies_fields (name : Option String) (r : ApplicationCreateResponse) :
    create_application name (SendOutcome.response 201 (ResponseBody.decodes r))
      = .ok r := rfl

/-- Claim C3: whenever the api call fails with some error, handle returns
exactly that error and the filesystem is returned unchanged, so no remote
is added or changed anywhere. -/
theorem claim3_error_no_mutation (fs : Filesystem) (path : String)
    (name : Option String)
    (api : Option String → Except CliError ApplicationCreateResponse) (e : CliError)
    (h : api name = .error e) :
    handle fs path name api = (.error e, fs) :=
  handle_of_error fs path name api e h

/-- Claim C3, witness: a failing api on a concrete repository directory. -/
theorem claim3_witness :
    handle (fun _ => { hasGitDir := true, remotes := [] }) "." none
        (fun _ => .error { message := "connection refused" })
      = (.error { message := "connection refused" },
         fun _ => { hasGitDir := true, remotes := [] }) :=
  claim3_error_no_mutation _ "." none _ { message := "connection refused" } rfl

/-- Claim C4: on a repository directory with no remote named capsule, a
successful handle call returns the response and afterwards the directory
has exactly one remote named capsule, whose URL is the git_repo field of
the response. -/
theorem claim4_adds_capsule_remote (fs : Filesystem) (path : String)
    (name : Option String)
    (api : Option String → Except CliError ApplicationCreateResponse)
    (r : ApplicationCreateResponse)
    (hok : api name = .ok r)
    (hgit : (fs path).hasGitDir = true)
    (hcap : (((fs path).remotes.map Prod.fst).find? (fun it => it == "capsule")) = none) :
    (handle fs path name api).1 = .ok r
    ∧ (((handle fs path name api).2 path).remotes.filter (fun p => p.1 == "capsule"))
        = [("capsule", r.git_repo)] := by
  have hhandle := handle_of_ok_add fs path name api r hok hgit hcap
  rw [hhandle]
  refine ⟨rfl, ?_⟩
  show ((fsUpdate fs path
      { fs path with remotes := (fs path).remotes ++ [("capsule", r.git_repo)] }) path).remotes.filter
        (fun p => p.1 == "capsule") = [("capsule", r.git_repo)]
  rw [fsUpdate_same]
  show (((fs path).remotes ++ [("capsule", r.git_repo)]).filter (fun p => p.1 == "capsule"))
      = [("capsule", r.git_repo)]
  rw [List.filter_append]
  have hnil : ((fs path).remotes.filter (fun p => p.1 == "capsule")) = [] := by
    rw [List.filter_eq_nil_iff]
    intro a ha
    have := List.find?_eq_none.mp hcap a.1 (List.mem_map_of_mem Prod.fst ha)
    simpa using this
  rw [hnil]
  simp

/-- Claim C4, witness: a fresh repository directory with no remotes. -/
theorem claim4_witness :
    (handle (fun _ => { hasGitDir := true, remotes := [] }) "." none
        (fun _ => .ok { name := "a", url := "u", git_repo := "g" })).1
      = .ok { name := "a", url := "u", git_repo := "g" }
    ∧ (((handle (fun _ => { hasGitDir := true, remotes := [] }) "." none
          (fun _ => .ok { name := "a", url := "u", git_repo := "g" })).2 ".").remotes.filter
            (fun p => p.1 == "capsule"))
        = [("capsule", "g")] :=
  claim4_adds_capsule_remote _ "." none _ _ rfl rfl rfl

/-- Claim C5: on a repository directory that already has a remote named
capsule (any URL), a successful handle call returns the response and the
filesystem is completely unchanged, so the existing remote keeps its name
and URL; running handle again from the resulting state gives the same
result, which is the claimed idempotence. -/
theorem claim5_existing_untouched (fs : Filesystem) (path : String)
    (name : Option String)
    (api : Option String → Except CliError ApplicationCreateResponse)
    (r : ApplicationCreateResponse)
    (hok : api name = .ok r)
    (hgit : (fs path).hasGitDir = true)
    (hcap : (((fs path).remotes.map Prod.fst).find? (fun it => it == "capsule")).isSome
        = true) :
    handle fs path name api = (.ok r, fs)
    ∧ handle ((handle fs path name api).2) path name api = handle fs path name api := by
  obtain ⟨v, hv⟩ := Option.isSome_iff_exists.mp hcap
  have h1 := handle_of_ok_existing fs path name api r v hok hgit hv
  exact ⟨h1, by rw [h1]; exact h1⟩

/-- Claim C5, witness: a repository directory whose capsule remote points
at an old URL different from the response. -/
theorem claim5_witness :
    handle (fun _ => { hasGitDir := true, remotes := [("capsule", "old-url")] }) "." none
        (fun _ => .ok { name := "a", url := "u", git_repo := "g" })
      = (.ok { name := "a", url := "u", git_repo := "g" },
         fun _ => { hasGitDir := true, remotes := [("capsule", "old-url")] }) :=
  (claim5_existing_untouched
    (fun _ => { hasGitDir := true, remotes := [("capsule", "old-url")] })
    "." none _ _ rfl rfl (by decide)).1

/-- Claim C6: on a directory that is not version-controlled, a successful
handle call returns the response, the filesystem is unchanged, and the
directory still has no version-control metadata afterwards. -/
theorem claim6_non_repo (fs : Filesystem) (path : String) (name : Option String)
    (api : Option String → Except CliError ApplicationCreateResponse)
    (r : ApplicationCreateResponse)
    (hok : api name = .ok r) (hgit : (fs path).hasGitDir = false) :
    handle fs path name api = (.ok r, fs)
    ∧ ((handle fs path name api).2 path).hasGitDir = false := by
  have h1 := handle_of_ok_nongit fs path name api r hok hgit
  exact ⟨h1, by rw [h1]; exact hgit⟩

/-- Claim C6, witness: a plain directory with no .git subdirectory. -/
theorem claim6_witness :
    handle (fun _ => { hasGitDir := false, remotes := [] }) "." none
        (fun _ => .ok { name := "a", url := "u", git_repo := "g" })
      = (.ok { name := "a", url := "u", git_repo := "g" },
         fun _ => { hasGitDir := false, remotes := [] }) :=
  (claim6_non_repo _ "." none _ _ rfl rfl).1

/-- Claim C7: for every Create command, the concatenated output of the
entry point is the prefix Creating application followed by, on success,
the done line with the name, the url line and the git line, each ending
in a newline, and on error the error message ending in a newline; the
full equality shows no other output is produced and the prefix comes
first. -/
theorem claim7_output_format (fs : Filesystem) (name : Option String)
    (api : Option String → Except CliError ApplicationCreateResponse) :
    String.join (execute_command fs (Commands.Create name) api).1
      = "Creating application... "
        ++ (match (handle fs "." name api).1 with
            | .error e => e.message ++ "\n"
            | .ok r => "done, " ++ r.name ++ "\n" ++ "url: " ++ r.url ++ "\n"
                ++ "git: " ++ r.git_repo ++ "\n") := by
  rw [execute_command_fst]
  cases (handle fs "." name api).1 with
  | error e =>
    simp only [String.join, List.foldl_cons, List.foldl_nil, String.empty_append,
      String.append_assoc]
  | ok r =>
    simp only [String.join, List.foldl_cons, List.foldl_nil, String.empty_append,
      String.append_assoc]

/-- Claim C8: a request that times out yields an error carrying the
timeout message of the HTTP library, and that message differs from the
status-code failure message for every possible status code. -/
theorem claim8_timeout_error (name : Option String) :
    create_application name SendOutcome.timeout
        = .error { message := timeoutErrorMessage }
    ∧ ∀ status_code : Nat, timeoutErrorMessage ≠ serverStatusMessage status_code :=
  ⟨rfl, timeoutErrorMessage_ne_serverStatusMessage⟩

/-- Claim C8, witness: the timeout error for an absent name, and
distinguishability from the status message at code 500. -/
theorem claim8_witness :
    create_application none SendOutcome.timeout
        = .error { message := timeoutErrorMessage }
    ∧ timeoutErrorMessage ≠ serverStatusMessage 500 :=
  ⟨(claim8_timeout_error none).1, (claim8_timeout_error none).2 500⟩

/-- Claim C9: in every run of handle, directories at other paths are
untouched, the version-control marker of the target directory is
unchanged, and its remote list is either exactly the old list or the old
list with the single remote capsule appended, so pre-existing remotes are
never removed or rewritten. -/
theorem claim9_frame (fs : Filesystem) (path : String) (name : Option String)
    (api : Option String → Except CliError ApplicationCreateResponse) :
    (∀ q, q = path ∨ (handle fs path name api).2 q = fs q)
    ∧ ((handle fs path name api).2 path).hasGitDir = (fs path).hasGitDir
    ∧ (((handle fs path name api).2 path).remotes = (fs path).remotes
       ∨ ∃ u, ((handle fs path name api).2 path).remotes
           = (fs path).remotes ++ [("capsule", u)]) := by
  have hsnd : (handle fs path name api).2 = fs
      ∨ ∃ u, (handle fs path name api).2
          = fsUpdate fs path
              { fs path with remotes := (fs path).remotes ++ [("capsule", u)] } := by
    cases hapi : api name with
    | error e => exact Or.inl (by rw [handle_of_error fs path name api e hapi])
    | ok r =>
      cases hgit : (fs path).hasGitDir with
      | false => exact Or.inl (by rw [handle_of_ok_nongit fs path name api r hapi hgit])
      | true =>
        cases hfind : (((fs path).remotes.map Prod.fst).find? (fun it => it == "capsule")) with
        | none =>
          exact Or.inr ⟨r.git_repo,
            by rw [handle_of_ok_add fs path name api r hapi hgit hfind]⟩
        | some v =>
          exact Or.inl (by rw [handle_of_ok_existing fs path name api r v hapi hgit hfind])
  rcases hsnd with h | ⟨u, h⟩
  · rw [h]
    exact ⟨fun q => Or.inr rfl, rfl, Or.inl rfl⟩
  · rw [h]
    refine ⟨?_, ?_, ?_⟩
    · intro q
      by_cases hq : q = path
      · exact Or.inl hq
      · exact Or.inr (fsUpdate_other fs path _ q hq)
    · rw [fsUpdate_same]
    · exact Or.inr ⟨u, by rw [fsUpdate_same]⟩

/-- Claim C10: the entry point consults and mutates the filesystem only at
the fixed directory dot: two filesystems agreeing there produce the same
output and the same resulting state there, and every other path keeps its
old state, so the target directory is not configurable through the
command line. -/
theorem claim10_fixed_directory (fs₁ fs₂ : Filesystem) (name : Option String)
    (api : Option String → Except CliError ApplicationCreateResponse)
    (h : fs₁ "." = fs₂ ".") :
    (execute_command fs₁ (Commands.Create name) api).1
        = (execute_command fs₂ (Commands.Create name) api).1
    ∧ (execute_command fs₁ (Commands.Create name) api).2 "."
        = (execute_command fs₂ (Commands.Create name) api).2 "."
    ∧ ∀ q, q = "." ∨ (execute_command fs₁ (Commands.Create name) api).2 q = fs₁ q := by
  have hc := handle_congr fs₁ fs₂ "." name api h
  refine ⟨?_, ?_, ?_⟩
  · rw [execute_command_fst, execute_command_fst, hc.1]
  · rw [execute_command_snd, execute_command_snd]
    exact hc.2
  · intro q
    by_cases hq : q = "."
    · exact Or.inl hq
    · refine Or.inr ?_
      rw [execute_command_snd]
      exact handle_frame fs₁ "." name api q hq

/-- Claim C10, witness: two filesystems that agree at dot but differ at
another path give the same output. -/
theorem claim10_witness :
    (execute_command (fun _ => { hasGitDir := false, remotes := [] })
        (Commands.Create none) (fun _ => .error { message := "boom" })).1
      = (execute_command
          (fun q => if q = "elsewhere"
            then { hasGitDir := true, remotes := [("x", "y")] }
            else { hasGitDir := false, remotes := [] })
          (Commands.Create none) (fun _ => .error { message := "boom" })).1 :=
  (claim10_fixed_directory _ _ none _ (by decide)).1
